import Mathlib

/-!
Verification of the control-connection protocol engine of the `ftp` crate
(`src/lib.rs`, `src/client.rs`, `src/response.rs`) via a shallow embedding.

Strings on the wire are modelled as `List Char` (all protocol-relevant bytes
are ASCII); `String` in Lean 4 is a structure wrapping a `List Char`, so the
two views are interchangeable.  Rust string helpers that the source uses
(`split`, `trim`, `make_ascii_uppercase`, ...) are re-implemented here as
structural recursions so that every definition evaluates by `rfl`/`decide`.
-/

/-- The reply codes of `src/response.rs` (`enum Code`, discriminants kept). -/
inductive Code
  | RestartMarkerReply
  | ServiceReadyInNNNMinutes
  | DataConnectionAlreadyOpen
  | FileStatusOk
  | Ok
  | CommandNotImplementedSuperfluousAtThisSite
  | SystemStatus
  | DirectoryStatus
  | FileStatus
  | HelpMessage
  | SystemTypeName
  | ServiceReadyForNewUser
  | ServiceClosing
  | DataConnectionOpen
  | ClosingDataConnection
  | EnteringPassiveMode
  | UserLoggedIn
  | RequestedFileActionComplete
  | PathNameCreated
  | UserNameOkPasswordNeeded
  | NeedAccountForLogin
  | RequestPendingMoreInformation
  | ServiceNotAvailable
  | CannotOpenDataConnection
  | ConnectionClosed
  | ActionNotTaken
  | ActionAborted
  | ActionNotTakenInsufficientStorage
  | CommandUnrecognized
  | InvalidParametersOrArguments
  | CommandNotImplemented
  | BadSequenceOfCommands
  | CommandNotImplementedForThatParameter
  | NotLoggedIn
  | NeedAccountForStoringFiles
  | FileUnavailable
  | PageTypeUnknown
  | ExceededStorageAllocation
  | FileNameNotAllowed
deriving DecidableEq

/-- The `repr(u16)` discriminant of each `Code` variant (`src/response.rs`). -/
def Code.toNat : Code → Nat
  | .RestartMarkerReply => 110
  | .ServiceReadyInNNNMinutes => 120
  | .DataConnectionAlreadyOpen => 125
  | .FileStatusOk => 150
  | .Ok => 200
  | .CommandNotImplementedSuperfluousAtThisSite => 202
  | .SystemStatus => 211
  | .DirectoryStatus => 212
  | .FileStatus => 213
  | .HelpMessage => 214
  | .SystemTypeName => 215
  | .ServiceReadyForNewUser => 220
  | .ServiceClosing => 221
  | .DataConnectionOpen => 225
  | .ClosingDataConnection => 226
  | .EnteringPassiveMode => 227
  | .UserLoggedIn => 230
  | .RequestedFileActionComplete => 250
  | .PathNameCreated => 257
  | .UserNameOkPasswordNeeded => 331
  | .NeedAccountForLogin => 332
  | .RequestPendingMoreInformation => 350
  | .ServiceNotAvailable => 421
  | .CannotOpenDataConnection => 425
  | .ConnectionClosed => 426
  | .ActionNotTaken => 450
  | .ActionAborted => 451
  | .ActionNotTakenInsufficientStorage => 452
  | .CommandUnrecognized => 500
  | .InvalidParametersOrArguments => 501
  | .CommandNotImplemented => 502
  | .BadSequenceOfCommands => 503
  | .CommandNotImplementedForThatParameter => 504
  | .NotLoggedIn => 530
  | .NeedAccountForStoringFiles => 532
  | .FileUnavailable => 550
  | .PageTypeUnknown => 551
  | .ExceededStorageAllocation => 552
  | .FileNameNotAllowed => 553

/-- Embeds `impl fmt::Display for Code`, which writes `*self as u16` in
decimal; these are the characters it produces. -/
def Code.chars (c : Code) : List Char := (Nat.repr c.toNat).data

/-- Every reply code renders as exactly three characters, each an ASCII
digit (all discriminants lie in `110..=553`). -/
theorem Code.chars_shape (c : Code) :
    ∃ d₁ d₂ d₃ : Char, c.chars = [d₁, d₂, d₃] ∧
      d₁.isDigit = true ∧ d₂.isDigit = true ∧ d₃.isDigit = true := by
  cases c <;> exact ⟨_, _, _, rfl, rfl, rfl, rfl⟩

/-! ## The reply encoder (`Connection::write_response`, src/lib.rs:68-91) -/

/-- Embeds `line.starts_with(|c: char| c.is_ascii_digit())`. -/
def startsWithDigit : List Char → Bool
  | [] => false
  | c :: _ => c.isDigit

/-- One continuation line of a multi-line reply: two spaces are prefixed
when the line starts with an ASCII digit, then the line and `\r\n`. -/
def contLine (l : List Char) : List Char :=
  (if startsWithDigit l then [' ', ' '] else []) ++ l ++ ['\r', '\n']

/-- The terminal line of a reply: `"<code> <line>\r\n"`. -/
def termLine (code l : List Char) : List Char :=
  code ++ [' '] ++ l ++ ['\r', '\n']

/-- Rust's `str::split(sep)` on the character list of a string: always
returns at least one (possibly empty) piece. -/
def splitCh (sep : Char) : List Char → List (List Char)
  | [] => [[]]
  | c :: rest =>
    if c = sep then [] :: splitCh sep rest
    else
      match splitCh sep rest with
      | l :: ls => (c :: l) :: ls
      | [] => [[c]]

theorem splitCh_ne_nil (sep : Char) (s : List Char) : splitCh sep s ≠ [] := by
  cases s with
  | nil => simp [splitCh]
  | cons c rest =>
    simp only [splitCh]
    split
    · simp
    · split <;> simp_all

/-- The `while let Some(line) = lines.next()` loop with `lines.peek()`
(src/lib.rs:76-85): every line but the last is a continuation line, the
last is the terminal line. -/
def encodeLines (code : List Char) : List (List Char) → List Char
  | [] => []
  | [l] => termLine code l
  | l :: l' :: ls => contLine l ++ encodeLines code (l' :: ls)

/-- Embeds `Connection::write_response` (src/lib.rs:68-91) as its emitted
bytes: if the message contains `'\n'` write `"<code>-"` followed by the encoded lines of
`message.split('\n')`; otherwise write `"<code> <message>\r\n"`. -/
def write_response (c : Code) (msg : List Char) : List Char :=
  if '\n' ∈ msg then c.chars ++ ['-'] ++ encodeLines c.chars (splitCh '\n' msg)
  else c.chars ++ [' '] ++ msg ++ ['\r', '\n']

/-- The encoder as the claim words it: `"<code>-"`, then every line except
the last as a continuation line (two spaces prefixed when digit-initial),
finally the last line as `"<code> <line>\r\n"`; single-line replies are
`"<code> <text>\r\n"`. -/
def writeResponseSpec (c : Code) (msg : List Char) : List Char :=
  if '\n' ∈ msg then
    let lines := splitCh '\n' msg
    c.chars ++ ['-'] ++ (lines.dropLast.map contLine).flatten
      ++ termLine c.chars (lines.getLastD [])
  else c.chars ++ [' '] ++ msg ++ ['\r', '\n']

theorem encodeLines_eq (code : List Char) :
    ∀ ls : List (List Char), ls ≠ [] →
      encodeLines code ls
        = (ls.dropLast.map contLine).flatten ++ termLine code (ls.getLastD [])
  | [], h => absurd rfl h
  | [l], _ => by simp [encodeLines]
  | l :: l' :: ls, _ => by
    have ih := encodeLines_eq code (l' :: ls) (by simp)
    simp only [encodeLines, ih, List.dropLast_cons₂, List.map_cons, List.flatten_cons,
      List.getLastD_cons, List.append_assoc]

/-- C1: the reply encoder emits exactly `"<code> <text>\r\n"` for messages
without line breaks, and for messages with line breaks emits `"<code>-"`,
then every line but the last as `"  <line>\r\n"` when digit-initial else
`"<line>\r\n"`, and the last line as `"<code> <line>\r\n"` — for every code
and every message. -/
theorem write_response_eq_spec (c : Code) (msg : List Char) :
    write_response c msg = writeResponseSpec c msg := by
  unfold write_response writeResponseSpec
  split
  · rw [encodeLines_eq c.chars _ (splitCh_ne_nil '\n' msg)]
    simp [List.append_assoc]
  · rfl

/-! ## The client reply decoder (`FtpConnection::read_cmd`, src/client.rs:47-90) -/

/-- Embeds `BufRead::read_line`: consume characters up to and including the first
`'\n'` (or to end of input), returning the line and the rest. -/
def readLine : List Char → List Char × List Char
  | [] => ([], [])
  | c :: rest =>
    if c = '\n' then ([c], rest)
    else ((c :: (readLine rest).1), (readLine rest).2)

theorem readLine_snd_length_le : ∀ s : List Char, (readLine s).2.length ≤ s.length
  | [] => Nat.le_refl 0
  | c :: rest => by
    simp only [readLine]
    split
    · simp
    · exact Nat.le_succ_of_le (readLine_snd_length_le rest)

theorem readLine_snd_lt (c : Char) (rest : List Char) :
    (readLine (c :: rest)).2.length < (c :: rest).length := by
  simp only [readLine]
  split
  · simp
  · exact Nat.lt_succ_of_le (readLine_snd_length_le rest)

theorem readLine_append (l rest : List Char) (h : '\n' ∉ l) :
    readLine (l ++ '\n' :: rest) = (l ++ ['\n'], rest) := by
  induction l with
  | nil => simp [readLine]
  | cons c cs ih =>
    have hc : c ≠ '\n' := fun hc => h (hc ▸ List.mem_cons_self c cs)
    have hcs : '\n' ∉ cs := fun hm => h (List.mem_cons_of_mem c hm)
    simp [readLine, hc, ih hcs]

/-- The `loop` of `FtpConnection::read_cmd` (src/client.rs:64-70): read one
line at a time, appending to the accumulated message, until the newly read
line starts with the three code characters followed by a space.  Reading at
end of input (Rust: `read_line` returning 0 bytes forever) is modelled as
`none`. -/
def multiLoop (pre : List Char) : List Char → List Char → Option (List Char × List Char)
  | _, [] => none
  | msg, c :: rest =>
    if pre.isPrefixOf (readLine (c :: rest)).1 then
      some (msg ++ (readLine (c :: rest)).1, (readLine (c :: rest)).2)
    else multiLoop pre (msg ++ (readLine (c :: rest)).1) (readLine (c :: rest)).2
termination_by _ stream => stream.length
decreasing_by exact readLine_snd_lt c rest

/-- Embeds `FtpConnection::read_cmd` (src/client.rs:47-90): read exactly three code
characters and one separator; if the separator is `'-'`, read lines until
one begins with the code followed by a space.  Returns the code characters,
the accumulated message and the unconsumed input (`none` models a read
failure / unterminated reply). -/
def client_read_cmd (stream : List Char) : Option (List Char × List Char × List Char) :=
  match stream with
  | c₁ :: c₂ :: c₃ :: sep :: rest =>
    if sep = '-' then
      match multiLoop [c₁, c₂, c₃, ' '] (readLine rest).1 (readLine rest).2 with
      | some (m, r) => some ([c₁, c₂, c₃], m, r)
      | none => none
    else some ([c₁, c₂, c₃], (readLine rest).1, (readLine rest).2)
  | _ => none

theorem splitCh_not_mem (sep : Char) : ∀ s : List Char, ∀ l ∈ splitCh sep s, sep ∉ l := by
  intro s
  induction s with
  | nil => intro l hl; simp [splitCh] at hl; simp [hl]
  | cons c rest ih =>
    intro l hl
    simp only [splitCh] at hl
    by_cases hc : c = sep
    · simp only [hc, if_true, List.mem_cons] at hl
      rcases hl with h | h
      · simp [h]
      · exact ih l h
    · simp only [hc, if_false] at hl
      rcases hsp : splitCh sep rest with _ | ⟨l₀, ls⟩
      · exact absurd hsp (splitCh_ne_nil sep rest)
      · rw [hsp] at hl
        rcases List.mem_cons.mp hl with h | h
        · subst h
          intro hmem
          rcases List.mem_cons.mp hmem with h | h
          · exact hc h.symm
          · exact ih l₀ (hsp ▸ List.mem_cons_self l₀ ls) h
        · exact ih l (hsp ▸ List.mem_cons_of_mem l₀ h)

theorem splitCh_two_of_mem (sep : Char) :
    ∀ s : List Char, sep ∈ s → ∃ l₁ l₂ ls, splitCh sep s = l₁ :: l₂ :: ls := by
  intro s
  induction s with
  | nil => intro h; simp at h
  | cons c rest ih =>
    intro h
    simp only [splitCh]
    by_cases hc : c = sep
    · simp only [hc, if_true]
      rcases hsp : splitCh sep rest with _ | ⟨l₀, ls⟩
      · exact absurd hsp (splitCh_ne_nil sep rest)
      · exact ⟨[], l₀, ls, rfl⟩
    · have hmem : sep ∈ rest := by
        rcases List.mem_cons.mp h with h' | h'
        · exact absurd h'.symm hc
        · exact h'
      obtain ⟨l₁, l₂, ls, hsp⟩ := ih hmem
      simp only [hc, if_false, hsp]
      exact ⟨c :: l₁, l₂, ls, rfl⟩

theorem isDigit_ne_of_not_digit {a b : Char} (ha : a.isDigit = true)
    (hb : b.isDigit = false) : b ≠ a := fun h => by rw [h, ha] at hb; cases hb

theorem not_isPrefixOf_head {a b : Char} (h : b ≠ a) (l₁ l₂ : List Char) :
    (a :: l₁).isPrefixOf (b :: l₂) = false := by
  simp [List.isPrefixOf_cons₂]
  intro hab
  exact absurd hab.symm h

theorem contLine_head (l : List Char) :
    ∃ b t, contLine l = b :: t ∧ b.isDigit = false := by
  unfold contLine
  rcases hsd : startsWithDigit l with _ | _
  · cases l with
    | nil => exact ⟨'\r', ['\n'], by simp, by decide⟩
    | cons x xs =>
      refine ⟨x, xs ++ ['\r', '\n'], by simp, ?_⟩
      simpa [startsWithDigit] using hsd
  · exact ⟨' ', ' ' :: (l ++ ['\r', '\n']), by simp, by decide⟩

theorem pre_not_prefixOf_contLine {d₁ : Char} (h : d₁.isDigit = true)
    (d₂ d₃ : Char) (l : List Char) :
    (d₁ :: d₂ :: d₃ :: [' ']).isPrefixOf (contLine l) = false := by
  obtain ⟨b, t, hbt, hb⟩ := contLine_head l
  rw [hbt]
  exact not_isPrefixOf_head (isDigit_ne_of_not_digit h hb) _ _

theorem not_newline_of_isDigit {c : Char} (h : c.isDigit = true) : c ≠ '\n' := by
  intro hc; rw [hc] at h; cases h

theorem readLine_contLine (l tail : List Char) (h : '\n' ∉ l) :
    readLine (contLine l ++ tail) = (contLine l, tail) := by
  have hsplit : contLine l ++ tail
      = ((if startsWithDigit l then [' ', ' '] else []) ++ l ++ ['\r']) ++ '\n' :: tail := by
    simp [contLine]
  have hnl : '\n' ∉ (if startsWithDigit l then [' ', ' '] else []) ++ l ++ ['\r'] := by
    intro hmem
    rcases List.mem_append.mp hmem with hmem' | hmem'
    · rcases List.mem_append.mp hmem' with hmem'' | hmem''
      · split at hmem'' <;> simp_all
      · exact h hmem''
    · simp_all
  rw [hsplit, readLine_append _ _ hnl]
  simp [contLine]

theorem readLine_termLine (code l tail : List Char) (hcode : '\n' ∉ code)
    (h : '\n' ∉ l) :
    readLine (termLine code l ++ tail) = (termLine code l, tail) := by
  have hsplit : termLine code l ++ tail = (code ++ [' '] ++ l ++ ['\r']) ++ '\n' :: tail := by
    simp [termLine]
  have hnl : '\n' ∉ code ++ [' '] ++ l ++ ['\r'] := by
    intro hmem
    rcases List.mem_append.mp hmem with hmem' | hmem'
    · rcases List.mem_append.mp hmem' with hmem'' | hmem''
      · rcases List.mem_append.mp hmem'' with hmem''' | hmem'''
        · exact hcode hmem'''
        · simp_all
      · exact h hmem''
    · simp_all
  rw [hsplit, readLine_append _ _ hnl]
  simp [termLine]

theorem multiLoop_eq_of_ne_nil (pre msg stream : List Char) (h : stream ≠ []) :
    multiLoop pre msg stream =
      (if pre.isPrefixOf (readLine stream).1 then
        some (msg ++ (readLine stream).1, (readLine stream).2)
       else multiLoop pre (msg ++ (readLine stream).1) (readLine stream).2) := by
  cases stream with
  | nil => exact absurd rfl h
  | cons c rest => rw [multiLoop]

theorem isPrefixOf_self_append (p q : List Char) : p.isPrefixOf (p ++ q) = true := by
  induction p with
  | nil => simp [List.isPrefixOf]
  | cons c cs ih => simp [List.isPrefixOf_cons₂, ih]

theorem newline_not_mem_digits {d₁ d₂ d₃ : Char} (h₁ : d₁.isDigit = true)
    (h₂ : d₂.isDigit = true) (h₃ : d₃.isDigit = true) : '\n' ∉ [d₁, d₂, d₃] := by
  intro hmem
  simp only [List.mem_cons, List.not_mem_nil, or_false] at hmem
  rcases hmem with h | h | h
  · rw [← h] at h₁; exact absurd h₁ (by decide)
  · rw [← h] at h₂; exact absurd h₂ (by decide)
  · rw [← h] at h₃; exact absurd h₃ (by decide)

theorem multiLoop_encodes (d₁ d₂ d₃ : Char) (h₁ : d₁.isDigit = true)
    (h₂ : d₂.isDigit = true) (h₃ : d₃.isDigit = true) (rest : List Char) :
    ∀ ls : List (List Char), ls ≠ [] → (∀ l ∈ ls, '\n' ∉ l) → ∀ msg : List Char,
      ∃ M, multiLoop [d₁, d₂, d₃, ' '] msg (encodeLines [d₁, d₂, d₃] ls ++ rest)
        = some (M, rest) := by
  intro ls
  induction ls with
  | nil => intro h; exact absurd rfl h
  | cons l tail ih =>
    intro _ hnl msg
    cases tail with
    | nil =>
      have hl : '\n' ∉ l := hnl l (List.mem_cons_self l [])
      have hcode := newline_not_mem_digits h₁ h₂ h₃
      have hne : termLine [d₁, d₂, d₃] l ++ rest ≠ [] := by simp [termLine]
      rw [encodeLines, multiLoop_eq_of_ne_nil _ _ _ hne,
        readLine_termLine _ _ _ hcode hl]
      have hpref : ([d₁, d₂, d₃, ' ']).isPrefixOf (termLine [d₁, d₂, d₃] l) = true := by
        have : termLine [d₁, d₂, d₃] l = [d₁, d₂, d₃, ' '] ++ (l ++ ['\r', '\n']) := by
          simp [termLine]
        rw [this]
        exact isPrefixOf_self_append _ _
      rw [hpref]
      exact ⟨msg ++ termLine [d₁, d₂, d₃] l, by simp⟩
    | cons l' ls' =>
      have hl : '\n' ∉ l := hnl l (List.mem_cons_self l _)
      have hne : contLine l ++ (encodeLines [d₁, d₂, d₃] (l' :: ls') ++ rest) ≠ [] := by
        simp [contLine]
      rw [encodeLines, List.append_assoc, multiLoop_eq_of_ne_nil _ _ _ hne,
        readLine_contLine _ _ hl, pre_not_prefixOf_contLine h₁ d₂ d₃ l]
      simp only [Bool.false_eq_true, if_false]
      exact ih (by simp) (fun x hx => hnl x (List.mem_cons_of_mem l hx)) (msg ++ contLine l)

/-- C2: decoding the encoder's byte sequence recovers the same three-digit
code and consumes exactly the encoded reply — the remainder of the input is
untouched, so no continuation line is ever mistaken for the terminal line. -/
theorem decode_encode_round_trip (c : Code) (msg rest : List Char) :
    ∃ M, client_read_cmd (write_response c msg ++ rest) = some (c.chars, M, rest) := by
  obtain ⟨d₁, d₂, d₃, hch, h₁, h₂, h₃⟩ := Code.chars_shape c
  unfold write_response
  by_cases hnl : '\n' ∈ msg
  · simp only [hnl, if_true, hch]
    obtain ⟨lA, lB, ls, hsp⟩ := splitCh_two_of_mem '\n' msg hnl
    have hlines := splitCh_not_mem '\n' msg
    have hlA : '\n' ∉ lA := hlines lA (by rw [hsp]; exact List.mem_cons_self _ _)
    rw [hsp]
    have hstream : ([d₁, d₂, d₃] ++ ['-'] ++ encodeLines [d₁, d₂, d₃] (lA :: lB :: ls)) ++ rest
        = d₁ :: d₂ :: d₃ :: '-' ::
            (contLine lA ++ (encodeLines [d₁, d₂, d₃] (lB :: ls) ++ rest)) := by
      simp only [encodeLines]
      simp [List.append_assoc]
    rw [hstream]
    simp only [client_read_cmd, if_pos rfl]
    rw [readLine_contLine _ _ hlA]
    obtain ⟨M, hM⟩ := multiLoop_encodes d₁ d₂ d₃ h₁ h₂ h₃ rest (lB :: ls) (by simp)
      (fun x hx => hlines x (by rw [hsp]; exact List.mem_cons_of_mem lA hx))
      (contLine lA)
    rw [hM]
    exact ⟨M, rfl⟩
  · simp only [hnl, if_false, hch]
    have hstream : ([d₁, d₂, d₃] ++ [' '] ++ msg ++ ['\r', '\n']) ++ rest
        = d₁ :: d₂ :: d₃ :: ' ' :: ((msg ++ ['\r']) ++ '\n' :: rest) := by
      simp [List.append_assoc]
    rw [hstream]
    have hsep : (' ' = '-') = False := by simp
    simp only [client_read_cmd, hsep, if_false]
    have hmr : '\n' ∉ msg ++ ['\r'] := by
      intro hmem
      rcases List.mem_append.mp hmem with h | h
      · exact hnl h
      · simp_all
    rw [readLine_append _ _ hmr]
    exact ⟨(msg ++ ['\r']) ++ ['\n'], rfl⟩

/-! ## Session state and command dispatch (`Connection::read_cmd`, src/lib.rs:126-290)

The filesystem is an external collaborator of the server (the source calls
`fs::create_dir`, `fs::remove_dir`, `fs::read_dir`, `Path::is_dir`,
`Path::exists`).  It is modelled as the set of existing directories — no
command in the engine creates regular files, so a directory-only view is
faithful for every command under verification.  The two TCP effects the
engine performs (`TcpStream::connect` in the PORT arm, writes on the data
socket) are modelled by an environment oracle for connect success and by a
presence bit for the open data connection. -/

/-- Embeds `DataType` (src/data.rs), the variants used by `Connection::type_cmd`. -/
inductive DataType
  | Ascii
  | Ebcdic
  | Image
  | LocalType
deriving DecidableEq

/-- Embeds `DataStructure` variants as used by `Connection::stru` (src/lib.rs:356-379). -/
inductive DataStructure
  | Files
  | Record
  | Page
deriving DecidableEq

/-- Embeds `TransferMode` variants as used by `Connection::mode` (src/lib.rs:328-354). -/
inductive TransferMode
  | Stream
  | Block
  | Compressed
deriving DecidableEq

/-- Modelled from the spec: the `Display` impls for the transfer parameters
(used only inside success-reply texts) are not under `src/`; the spec names
the variants ASCII/EBCDIC/Image/Local, File/Record/Page, and
Stream/Block/Compressed, so each variant displays as its name. -/
def DataType.display : DataType → String
  | .Ascii => "ASCII"
  | .Ebcdic => "EBCDIC"
  | .Image => "Image"
  | .LocalType => "Local"

/-- Modelled from the spec: see `DataType.display`. -/
def DataStructure.display : DataStructure → String
  | .Files => "File"
  | .Record => "Record"
  | .Page => "Page"

/-- Modelled from the spec: see `DataType.display`. -/
def TransferMode.display : TransferMode → String
  | .Stream => "Stream"
  | .Block => "Block"
  | .Compressed => "Compressed"

/-- The `users: BTreeMap<String, String>` of `Config` (src/lib.rs:12,23-31),
as an association list; `get` is lookup by key equality. -/
structure Config where
  users : List (String × String)

def usersGet (users : List (String × String)) (k : String) : Option String :=
  match users with
  | [] => none
  | (k', v) :: rest => if k' = k then some v else usersGet rest k

/-- The mutable fields of `Connection` (src/lib.rs:33-43) that the command
handlers touch.  `dataConnection` is the presence of the
`Option<TcpStream>` data connection. -/
structure SessionState where
  path : String
  username : Option String
  dataType : DataType
  dataStructure : DataStructure
  transferMode : TransferMode
  dataConnection : Bool
deriving DecidableEq

/-- The filesystem, as the set of paths that exist as directories. -/
structure FS where
  dirs : List String
deriving DecidableEq

def FS.isDir (fs : FS) (p : String) : Bool := fs.dirs.contains p

/-- In the directory-only filesystem model, `Path::exists` coincides with
`Path::is_dir`. -/
def FS.pathExists (fs : FS) (p : String) : Bool := fs.isDir p

/-- A directory is non-empty when some other directory lives under it;
`fs::remove_dir` fails on it. -/
def FS.hasChild (fs : FS) (p : String) : Bool :=
  fs.dirs.any fun q => q ≠ p && (p.data ++ ['/']).isPrefixOf q.data

/-- The environment for `TcpStream::connect((ip, port))` in the PORT arm:
whether the peer at the given IPv4 address and port accepts the connection. -/
structure Env where
  connectOk : Nat × Nat × Nat × Nat → Nat → Bool

/-- How one call of `Connection::read_cmd` ends: proceed to the next
command (`Ok(true)`), quit the loop (`Ok(false)`), propagate an `io::Error`
(`Err(..)` — the session dies), or panic (`todo!()` / `unwrap()` — the
thread dies). -/
inductive Ending
  | next
  | quit
  | fatal
  | panicked
deriving DecidableEq

/-- The observable result of handling one command: the ordered replies
written to the control connection, the session state and filesystem after,
and how the call ended. -/
structure Outcome where
  replies : List (Code × String)
  st : SessionState
  fs : FS
  ending : Ending
deriving DecidableEq

/-- ASCII-uppercase one character (`u8::make_ascii_uppercase`). -/
def asciiUpper (c : Char) : Char :=
  if 'a' ≤ c ∧ c ≤ 'z' then Char.ofNat (c.toNat - 32) else c

/-- Embeds `str::make_ascii_uppercase`. -/
def toUpperS (s : String) : String := ⟨s.data.map asciiUpper⟩

/-- ASCII-lowercase one character (`u8::to_ascii_lowercase`). -/
def asciiLower (c : Char) : Char :=
  if 'A' ≤ c ∧ c ≤ 'Z' then Char.ofNat (c.toNat + 32) else c

/-- Embeds `str::to_ascii_lowercase`. -/
def toLowerS (s : String) : String := ⟨s.data.map asciiLower⟩

/-- ASCII whitespace, as trimmed by `str::trim` on protocol input. -/
def isWsChar (c : Char) : Bool :=
  c = ' ' || c = '\t' || c = '\n' || c = '\r' || c = '\x0b' || c = '\x0c'

/-- Embeds `str::trim`. -/
def trimChars (s : List Char) : List Char :=
  ((s.dropWhile isWsChar).reverse.dropWhile isWsChar).reverse

def trimS (s : String) : String := ⟨trimChars s.data⟩

/-- Embeds `PathBuf::join` for Unix-style paths: an absolute argument replaces the
base, otherwise the argument is appended with a `/` separator. -/
def joinPath (base arg : String) : String :=
  if arg.data.head? = some '/' then arg
  else if base = "" then arg
  else if base.data.getLast? = some '/' then base ++ arg
  else base ++ "/" ++ arg

/-- The decimal value of a digit string (caller guarantees digits only). -/
def natOfDigits (s : List Char) : Nat :=
  s.foldl (fun acc c => acc * 10 + (c.toNat - 48)) 0

/-- Embeds `u16::from_str`: an optional leading `+`, then one or more decimal
digits, and the value must fit in 16 bits. -/
def parseU16 (s : List Char) : Option Nat :=
  let t := match s with
    | '+' :: rest => rest
    | _ => s
  if t ≠ [] && t.all Char.isDigit then
    let n := natOfDigits t
    if n < 65536 then some n else none
  else none

/-- One octet of `Ipv4Addr::from_str`: one to three decimal digits, no
leading zero (except `"0"` itself), value at most 255. -/
def parseOctet (s : List Char) : Option Nat :=
  if s ≠ [] && s.all Char.isDigit && s.length ≤ 3
      && !(s.head? = some '0' && s ≠ ['0']) then
    let n := natOfDigits s
    if n ≤ 255 then some n else none
  else none

/-- Embeds `Vec::join(".")` on the remaining octet strings. -/
def joinDot : List (List Char) → List Char
  | [] => []
  | [x] => x
  | x :: y :: rest => x ++ '.' :: joinDot (y :: rest)

/-- Embeds `Ipv4Addr::from_str` on the dot-joined host octets: exactly four valid
octets. -/
def parseIpv4 (s : List Char) : Option (Nat × Nat × Nat × Nat) :=
  match splitCh '.' s with
  | [a, b, c, d] =>
    match parseOctet a, parseOctet b, parseOctet c, parseOctet d with
    | some x, some y, some z, some w => some (x, y, z, w)
    | _, _, _, _ => none
  | _ => none

/-- Embeds `fmt::Debug` for `PathBuf` renders the path quoted. -/
def quoteDebug (p : String) : String := "\"" ++ p ++ "\""

/-! ### The command handlers -/

/-- The `"USER"` arm (src/lib.rs:154-176). -/
def userArm (cfg : Config) (st : SessionState) (fs : FS) (arg : String) : Outcome :=
  if arg = "" then
    ⟨[(.InvalidParametersOrArguments, "Username may not be empty.")], st, fs, .next⟩
  else if (usersGet cfg.users arg).isNone then
    ⟨[(.NotLoggedIn, "User does not exist.")], st, fs, .next⟩
  else
    ⟨[(.UserNameOkPasswordNeeded, "Username Ok. Password needed.")],
      { st with username := some arg }, fs, .next⟩

/-- The `"PASS"` arm (src/lib.rs:177-189). -/
def passArm (cfg : Config) (st : SessionState) (fs : FS) (arg : String) : Outcome :=
  match st.username with
  | some username =>
    if usersGet cfg.users username = some arg then
      ⟨[(.UserLoggedIn, "Logged in.")], st, fs, .next⟩
    else
      ⟨[(.NotLoggedIn, "Incorrect password.")], st, fs, .next⟩
  | none => ⟨[(.BadSequenceOfCommands, "Expected `USER`.")], st, fs, .next⟩

/-- The `"XCWD" | "CWD "` arm (src/lib.rs:191-202). -/
def cwdArm (st : SessionState) (fs : FS) (arg : String) : Outcome :=
  let path := joinPath st.path arg
  if !fs.isDir path then
    ⟨[(.InvalidParametersOrArguments, "Path is not a directory.")], st, fs, .next⟩
  else
    ⟨[(.Ok, "Changed directory.")], { st with path := path }, fs, .next⟩

/-- The pure part of the `"PORT"` arm (src/lib.rs:210-232): what the
argument parsing does before any connect.  `panicked` captures the
`unwrap()`s on `Vec::pop` and `str::parse` and (in a debug build) the
overflow of the `u16` addition; `badIp` is the handled
`Ipv4Addr::from_str` failure. -/
inductive PortParse
  | panicked
  | badIp
  | ok (ip : Nat × Nat × Nat × Nat) (port : Nat)
deriving DecidableEq

def portPipeline (arg : String) : PortParse :=
  let vals := splitCh ',' arg.data
  match vals.getLast? with
  | none => .panicked
  | some v₂ =>
    match parseU16 v₂ with
    | none => .panicked
    | some p₂ =>
      let vals := vals.dropLast
      match vals.getLast? with
      | none => .panicked
      | some v₁ =>
        match parseU16 v₁ with
        | none => .panicked
        | some p₁ =>
          let vals := vals.dropLast
          if 65536 ≤ p₂ + p₁ * 256 % 65536 then .panicked
          else
            match parseIpv4 (joinDot vals) with
            | none => .badIp
            | some ip => .ok ip (p₂ + p₁ * 256 % 65536)

/-- The `"PORT"` arm (src/lib.rs:210-232): parse, then
`TcpStream::connect((ip, port))?` — a connect failure propagates the
`io::Error` out of `read_cmd` (the `?` operator), ending the session. -/
def portArm (env : Env) (st : SessionState) (fs : FS) (arg : String) : Outcome :=
  match portPipeline arg with
  | .panicked => ⟨[], st, fs, .panicked⟩
  | .badIp => ⟨[(.InvalidParametersOrArguments, "IP not in valid format.")], st, fs, .next⟩
  | .ok ip port =>
    if env.connectOk ip port then
      ⟨[(.Ok, "Changed port.")], { st with dataConnection := true }, fs, .next⟩
    else ⟨[], st, fs, .fatal⟩

/-- Embeds `Connection::type_cmd` (src/lib.rs:381-413). -/
def type_cmd (st : SessionState) (fs : FS) (arg : String) : Outcome :=
  match arg.data.head? with
  | none => ⟨[(.InvalidParametersOrArguments, "Missing argument.")], st, fs, .next⟩
  | some c =>
    if c = 'A' ∨ c = 'a' then
      ⟨[(.Ok, "Type is now " ++ DataType.Ascii.display ++ ".")],
        { st with dataType := .Ascii }, fs, .next⟩
    else if c = 'E' ∨ c = 'e' then
      ⟨[(.Ok, "Type is now " ++ DataType.Ebcdic.display ++ ".")],
        { st with dataType := .Ebcdic }, fs, .next⟩
    else if c = 'I' ∨ c = 'i' then
      ⟨[(.Ok, "Type is now " ++ DataType.Image.display ++ ".")],
        { st with dataType := .Image }, fs, .next⟩
    else if c = 'L' then
      if trimS ⟨arg.data.tail⟩ ≠ "8" then
        ⟨[(.CommandNotImplementedForThatParameter, "Only 8-bit bytes are supported.")],
          st, fs, .next⟩
      else
        ⟨[(.Ok, "Type is now " ++ DataType.LocalType.display ++ ".")],
          { st with dataType := .LocalType }, fs, .next⟩
    else
      ⟨[(.CommandNotImplementedForThatParameter,
          "Unknown TYPE: " ++ String.singleton c ++ ".")], st, fs, .next⟩

/-- Embeds `Connection::stru` (src/lib.rs:356-379). -/
def stru (st : SessionState) (fs : FS) (arg : String) : Outcome :=
  match arg.data.head? with
  | none => ⟨[(.InvalidParametersOrArguments, "Missing argument.")], st, fs, .next⟩
  | some c =>
    if c = 'F' ∨ c = 'f' then
      ⟨[(.Ok, "Structure is now " ++ DataStructure.Files.display ++ ".")],
        { st with dataStructure := .Files }, fs, .next⟩
    else if c = 'R' ∨ c = 'r' then
      ⟨[(.Ok, "Structure is now " ++ DataStructure.Record.display ++ ".")],
        { st with dataStructure := .Record }, fs, .next⟩
    else if c = 'P' ∨ c = 'p' then
      ⟨[(.Ok, "Structure is now " ++ DataStructure.Page.display ++ ".")],
        { st with dataStructure := .Page }, fs, .next⟩
    else
      ⟨[(.CommandNotImplementedForThatParameter,
          "Unknown STRUcture: " ++ String.singleton c ++ ".")], st, fs, .next⟩

/-- Embeds `Connection::mode` (src/lib.rs:328-354). -/
def mode (st : SessionState) (fs : FS) (arg : String) : Outcome :=
  match arg.data.head? with
  | none => ⟨[(.InvalidParametersOrArguments, "Missing argument.")], st, fs, .next⟩
  | some c =>
    if c = 'S' ∨ c = 's' then
      ⟨[(.Ok, "Transfer mode is now " ++ TransferMode.Stream.display ++ ".")],
        { st with transferMode := .Stream }, fs, .next⟩
    else if c = 'B' ∨ c = 'b' then
      ⟨[(.Ok, "Transfer mode is now " ++ TransferMode.Block.display ++ ".")],
        { st with transferMode := .Block }, fs, .next⟩
    else if c = 'C' ∨ c = 'c' then
      ⟨[(.Ok, "Transfer mode is now " ++ TransferMode.Compressed.display ++ ".")],
        { st with transferMode := .Compressed }, fs, .next⟩
    else
      ⟨[(.CommandNotImplementedForThatParameter,
          "Unknown transfer mode: " ++ String.singleton c ++ ".")], st, fs, .next⟩

/-- Embeds `Connection::opts` (src/lib.rs:292-301). -/
def opts (st : SessionState) (fs : FS) (arg : String) : Outcome :=
  if toLowerS arg = "utf8 on" then ⟨[(.Ok, "Ok, UTF-8 enabled.")], st, fs, .next⟩
  else ⟨[(.CommandNotImplemented, "Unknown option.")], st, fs, .next⟩

/-- Embeds `Connection::rmd` (src/lib.rs:303-326).  `fs::remove_dir` fails when
the directory is non-empty; its error text is abstracted. -/
def rmd (st : SessionState) (fs : FS) (arg : String) : Outcome :=
  let path := joinPath st.path arg
  if !fs.pathExists path then
    ⟨[(.FileUnavailable,
        "Error removing " ++ quoteDebug path ++ ": No such file or directory.")],
      st, fs, .next⟩
  else if fs.hasChild path then
    ⟨[(.ActionNotTaken, "Error deleting " ++ quoteDebug path ++ ": Directory not empty.")],
      st, fs, .next⟩
  else
    ⟨[(.RequestedFileActionComplete, "Successfully deleted " ++ quoteDebug path ++ ".")],
      st, ⟨fs.dirs.erase path⟩, .next⟩

/-- The directory containing `p`: the part of the path before the final
separator (`Path::parent` for the paths this engine builds).  A path with
no separator is a bare name in the current working directory. -/
def parentDir (p : String) : Option String :=
  if '/' ∈ p.data then
    some ⟨((p.data.reverse.dropWhile fun c => c ≠ '/').tail).reverse⟩
  else none

/-- Embeds `fs::create_dir` (called at src/lib.rs:252) over the
directory-set filesystem: creation succeeds when the path's parent
directory exists (a bare name is created in the current working directory,
which exists); a missing parent is the `io::Error` case.  Environmental
failures (permissions) are outside the model. -/
def createDirOk (fs : FS) (p : String) : Bool :=
  match parentDir p with
  | none => true
  | some par => fs.dirs.contains par

/-- The `"XMKD" | "MKD " | "MKD\r"` arm (src/lib.rs:248-259):
`if !path.exists() { fs::create_dir(&path)?; }` then reply 257, with all
three outcomes written out: a pre-existing path skips creation and replies
257; a creatable path is created and replies 257; a failing
`fs::create_dir` propagates its `io::Error` via `?`, ending the session
with no reply. -/
def mkdArm (st : SessionState) (fs : FS) (arg : String) : Outcome :=
  let path := joinPath st.path arg
  if fs.pathExists path then
    ⟨[(.PathNameCreated, "Successfully created " ++ quoteDebug path ++ ".")], st, fs, .next⟩
  else if createDirOk fs path then
    ⟨[(.PathNameCreated, "Successfully created " ++ quoteDebug path ++ ".")], st,
      ⟨path :: fs.dirs⟩, .next⟩
  else ⟨[], st, fs, .fatal⟩

/-- Embeds `Connection::write_to_data_connection` (src/lib.rs:93-112): reply 150,
`take()` the data connection; with a connection, send and reply 226; with
none, reply 425 and continue. -/
def write_to_data_connection (st : SessionState) (fs : FS) : Outcome :=
  let st' := { st with dataConnection := false }
  if st.dataConnection then
    ⟨[(.FileStatusOk, "Connecting to data port."),
      (.ClosingDataConnection, "Closing connection")], st', fs, .next⟩
  else
    ⟨[(.FileStatusOk, "Connecting to data port."),
      (.CannotOpenDataConnection, "No data connection")], st', fs, .next⟩

/-- The `"NLST"` arm (src/lib.rs:265-279): `fs::read_dir(path)?` errors
fatally when the path is not a directory; otherwise the entry names go to
the data connection.  The listing payload is written on the data socket,
not the control connection, so it does not appear among the replies. -/
def nlstArm (st : SessionState) (fs : FS) (arg : String) : Outcome :=
  let path := joinPath st.path arg
  if !fs.isDir path then ⟨[], st, fs, .fatal⟩
  else write_to_data_connection st fs

/-- A handler left unimplemented in the source: `todo!()` panics, killing
the session thread before any reply is written. -/
def todoArm (st : SessionState) (fs : FS) : Outcome := ⟨[], st, fs, .panicked⟩

/-- The `match command.as_str()` of `Connection::read_cmd`
(src/lib.rs:153-287): the arms in source order.  `command` is the
uppercased token; `arg` is the rest of the line, trimmed
(`Connection::read_arg`). -/
def dispatch (cfg : Config) (env : Env) (st : SessionState) (fs : FS)
    (command arg : String) : Outcome :=
  if command = "USER" then userArm cfg st fs arg
  else if command = "PASS" then passArm cfg st fs arg
  else if command = "ACCT" then todoArm st fs
  else if command = "XCWD" ∨ command = "CWD " then cwdArm st fs arg
  else if command = "CDUP" then todoArm st fs
  else if command = "SMNT" then todoArm st fs
  else if command = "QUIT" then ⟨[(.ServiceClosing, "Goodbye!")], st, fs, .quit⟩
  else if command = "REIN" then todoArm st fs
  else if command = "PORT" then portArm env st fs arg
  else if command = "PASV" then todoArm st fs
  else if command = "TYPE" then type_cmd st fs arg
  else if command = "STRU" then stru st fs arg
  else if command = "MODE" then mode st fs arg
  else if command = "RETR" then todoArm st fs
  else if command = "STOR" then todoArm st fs
  else if command = "STOU" then todoArm st fs
  else if command = "APPE" then todoArm st fs
  else if command = "ALLO" then todoArm st fs
  else if command = "REST" then todoArm st fs
  else if command = "RNFR" then todoArm st fs
  else if command = "RNTO" then todoArm st fs
  else if command = "ABOR" then todoArm st fs
  else if command = "DELE" then todoArm st fs
  else if command = "XRMD" ∨ command = "RMD " ∨ command = "RMD\r" then rmd st fs arg
  else if command = "XMKD" ∨ command = "MKD " ∨ command = "MKD\r" then mkdArm st fs arg
  else if command = "XPWD" ∨ command = "PWD\r" ∨ command = "PWD " then
    ⟨[(.Ok, st.path)], st, fs, .next⟩
  else if command = "LIST" then todoArm st fs
  else if command = "NLST" then nlstArm st fs arg
  else if command = "SITE" then todoArm st fs
  else if command = "SYST" then todoArm st fs
  else if command = "STAT" then todoArm st fs
  else if command = "HELP" then todoArm st fs
  else if command = "NOOP" then ⟨[(.Ok, "NOOP")], st, fs, .next⟩
  else if command = "OPTS" then opts st fs arg
  else ⟨[(.CommandUnrecognized, "Command not recognized.")], st, fs, .next⟩

/-- The entry point: uppercase the token, answer 500 when fewer than four
bytes were read or the token has fewer than three significant characters
(before the argument is read), otherwise dispatch on the token. -/
def read_cmd (cfg : Config) (env : Env) (st : SessionState) (fs : FS)
    (cmd arg : String) : Outcome :=
  if cmd.length < 4 ∨ (trimS (toUpperS cmd)).length < 3 then
    ⟨[(.CommandUnrecognized, "Command not recognized.")], st, fs, .next⟩
  else dispatch cfg env st fs (toUpperS cmd) arg

/-! ### Concrete fixtures (the mock server of src/mock.rs: users a/a and b/b,
root path ".", no peer accepting data connections). -/

def exCfg : Config := ⟨[("a", "a"), ("b", "b")]⟩

def exEnv : Env := ⟨fun _ _ => false⟩

/-- The session state right after `Connection::new` (src/lib.rs:46-66):
root path `"."`, no user, transfer parameters at their defaults.  The
`Default` impls for the transfer parameters are not under `src/`; the spec
gives the defaults ASCII / File / Stream. -/
def exSt : SessionState := ⟨".", none, .Ascii, .Files, .Stream, false⟩

def exStU : SessionState := ⟨".", some "a", .Ascii, .Files, .Stream, false⟩

def exFs : FS := ⟨["."]⟩

def exFsSub : FS := ⟨["./sub"]⟩

/-! ### Helper lemmas for the atomicity analysis -/

theorem setDataConn_eq (st : SessionState) (h : st.dataConnection = false) :
    { st with dataConnection := false } = st := by
  cases st; simp_all

theorem not_err_single {C : Code} {M : String} {c : Code} {m : String}
    (h : (([(C, M)] : List (Code × String))).getLast? = some (c, m))
    (hc : C.toNat < 400) (herr : 400 ≤ c.toNat) : False := by
  simp only [List.getLast?_singleton, Option.some_inj, Prod.mk.injEq] at h
  rcases h with ⟨h1, _⟩
  rw [← h1] at herr
  omega

theorem passArm_st (cfg : Config) (st : SessionState) (fs : FS) (arg : String) :
    (passArm cfg st fs arg).st = st := by
  unfold passArm
  rcases st.username with _ | u
  · rfl
  · dsimp only
    split <;> rfl

theorem rmd_st (st : SessionState) (fs : FS) (arg : String) : (rmd st fs arg).st = st := by
  unfold rmd
  dsimp only
  split_ifs <;> rfl

theorem opts_st (st : SessionState) (fs : FS) (arg : String) : (opts st fs arg).st = st := by
  unfold opts
  split_ifs <;> rfl

theorem mkdArm_st (st : SessionState) (fs : FS) (arg : String) : (mkdArm st fs arg).st = st := by
  unfold mkdArm
  dsimp only
  split_ifs <;> rfl

theorem userArm_atomic (cfg : Config) (st : SessionState) (fs : FS) (arg : String)
    (c : Code) (m : String)
    (h : (userArm cfg st fs arg).replies.getLast? = some (c, m)) (herr : 400 ≤ c.toNat) :
    (userArm cfg st fs arg).st = st := by
  unfold userArm at h ⊢
  split_ifs at h ⊢
  · rfl
  · rfl
  · exact absurd (not_err_single h (by decide) herr) not_false

theorem cwdArm_atomic (st : SessionState) (fs : FS) (arg : String) (c : Code) (m : String)
    (h : (cwdArm st fs arg).replies.getLast? = some (c, m)) (herr : 400 ≤ c.toNat) :
    (cwdArm st fs arg).st = st := by
  unfold cwdArm at h ⊢
  dsimp only at h ⊢
  split_ifs at h ⊢
  · rfl
  · exact absurd (not_err_single h (by decide) herr) not_false

theorem portArm_atomic (env : Env) (st : SessionState) (fs : FS) (arg : String)
    (c : Code) (m : String)
    (h : (portArm env st fs arg).replies.getLast? = some (c, m)) (herr : 400 ≤ c.toNat) :
    (portArm env st fs arg).st = st := by
  revert h
  unfold portArm
  rcases portPipeline arg with _ | _ | ⟨ip, port⟩
  · intro h; simp at h
  · intro _; rfl
  · dsimp only
    split_ifs
    · intro h
      exact absurd (not_err_single h (by decide) herr) not_false
    · intro _; rfl

theorem type_cmd_atomic (st : SessionState) (fs : FS) (arg : String) (c : Code) (m : String)
    (h : (type_cmd st fs arg).replies.getLast? = some (c, m)) (herr : 400 ≤ c.toNat) :
    (type_cmd st fs arg).st = st := by
  revert h
  unfold type_cmd
  rcases arg.data.head? with _ | ch
  · intro _; rfl
  · dsimp only
    split_ifs <;> intro h <;>
      first
        | rfl
        | exact absurd (not_err_single h (by decide) herr) not_false

theorem stru_atomic (st : SessionState) (fs : FS) (arg : String) (c : Code) (m : String)
    (h : (stru st fs arg).replies.getLast? = some (c, m)) (herr : 400 ≤ c.toNat) :
    (stru st fs arg).st = st := by
  revert h
  unfold stru
  rcases arg.data.head? with _ | ch
  · intro _; rfl
  · dsimp only
    split_ifs <;> intro h <;>
      first
        | rfl
        | exact absurd (not_err_single h (by decide) herr) not_false

theorem mode_atomic (st : SessionState) (fs : FS) (arg : String) (c : Code) (m : String)
    (h : (mode st fs arg).replies.getLast? = some (c, m)) (herr : 400 ≤ c.toNat) :
    (mode st fs arg).st = st := by
  revert h
  unfold mode
  rcases arg.data.head? with _ | ch
  · intro _; rfl
  · dsimp only
    split_ifs <;> intro h <;>
      first
        | rfl
        | exact absurd (not_err_single h (by decide) herr) not_false

theorem nlstArm_atomic (st : SessionState) (fs : FS) (arg : String) (c : Code) (m : String)
    (h : (nlstArm st fs arg).replies.getLast? = some (c, m)) (herr : 400 ≤ c.toNat) :
    (nlstArm st fs arg).st = st := by
  revert h
  unfold nlstArm write_to_data_connection
  dsimp only
  split_ifs with h1 h2
  · intro h; simp at h
  · intro h
    simp only [List.getLast?_cons_cons, List.getLast?_singleton, Option.some_inj,
      Prod.mk.injEq] at h
    rcases h with ⟨h', _⟩
    rw [← h'] at herr
    exact absurd herr (by decide)
  · intro _
    exact setDataConn_eq st (by simp_all)

theorem dispatch_atomic (cfg : Config) (env : Env) (st : SessionState) (fs : FS)
    (command arg : String) (c : Code) (m : String)
    (hlast : (dispatch cfg env st fs command arg).replies.getLast? = some (c, m))
    (herr : 400 ≤ c.toNat) :
    (dispatch cfg env st fs command arg).st = st := by
  revert hlast
  unfold dispatch
  by_cases h1 : command = "USER"
  · rw [if_pos h1]
    intro hlast
    exact userArm_atomic cfg st fs arg c m hlast herr
  rw [if_neg h1]
  by_cases h2 : command = "PASS"
  · rw [if_pos h2]
    intro _
    exact passArm_st cfg st fs arg
  rw [if_neg h2]
  by_cases h3 : command = "ACCT"
  · rw [if_pos h3]
    intro _
    rfl
  rw [if_neg h3]
  by_cases h4 : command = "XCWD" ∨ command = "CWD "
  · rw [if_pos h4]
    intro hlast
    exact cwdArm_atomic st fs arg c m hlast herr
  rw [if_neg h4]
  by_cases h5 : command = "CDUP"
  · rw [if_pos h5]
    intro _
    rfl
  rw [if_neg h5]
  by_cases h6 : command = "SMNT"
  · rw [if_pos h6]
    intro _
    rfl
  rw [if_neg h6]
  by_cases h7 : command = "QUIT"
  · rw [if_pos h7]
    intro _
    rfl
  rw [if_neg h7]
  by_cases h8 : command = "REIN"
  · rw [if_pos h8]
    intro _
    rfl
  rw [if_neg h8]
  by_cases h9 : command = "PORT"
  · rw [if_pos h9]
    intro hlast
    exact portArm_atomic env st fs arg c m hlast herr
  rw [if_neg h9]
  by_cases h10 : command = "PASV"
  · rw [if_pos h10]
    intro _
    rfl
  rw [if_neg h10]
  by_cases h11 : command = "TYPE"
  · rw [if_pos h11]
    intro hlast
    exact type_cmd_atomic st fs arg c m hlast herr
  rw [if_neg h11]
  by_cases h12 : command = "STRU"
  · rw [if_pos h12]
    intro hlast
    exact stru_atomic st fs arg c m hlast herr
  rw [if_neg h12]
  by_cases h13 : command = "MODE"
  · rw [if_pos h13]
    intro hlast
    exact mode_atomic st fs arg c m hlast herr
  rw [if_neg h13]
  by_cases h14 : command = "RETR"
  · rw [if_pos h14]
    intro _
    rfl
  rw [if_neg h14]
  by_cases h15 : command = "STOR"
  · rw [if_pos h15]
    intro _
    rfl
  rw [if_neg h15]
  by_cases h16 : command = "STOU"
  · rw [if_pos h16]
    intro _
    rfl
  rw [if_neg h16]
  by_cases h17 : command = "APPE"
  · rw [if_pos h17]
    intro _
    rfl
  rw [if_neg h17]
  by_cases h18 : command = "ALLO"
  · rw [if_pos h18]
    intro _
    rfl
  rw [if_neg h18]
  by_cases h19 : command = "REST"
  · rw [if_pos h19]
    intro _
    rfl
  rw [if_neg h19]
  by_cases h20 : command = "RNFR"
  · rw [if_pos h20]
    intro _
    rfl
  rw [if_neg h20]
  by_cases h21 : command = "RNTO"
  · rw [if_pos h21]
    intro _
    rfl
  rw [if_neg h21]
  by_cases h22 : command = "ABOR"
  · rw [if_pos h22]
    intro _
    rfl
  rw [if_neg h22]
  by_cases h23 : command = "DELE"
  · rw [if_pos h23]
    intro _
    rfl
  rw [if_neg h23]
  by_cases h24 : command = "XRMD" ∨ command = "RMD " ∨ command = "RMD\r"
  · rw [if_pos h24]
    intro _
    exact rmd_st st fs arg
  rw [if_neg h24]
  by_cases h25 : command = "XMKD" ∨ command = "MKD " ∨ command = "MKD\r"
  · rw [if_pos h25]
    intro _
    exact mkdArm_st st fs arg
  rw [if_neg h25]
  by_cases h26 : command = "XPWD" ∨ command = "PWD\r" ∨ command = "PWD "
  · rw [if_pos h26]
    intro _
    rfl
  rw [if_neg h26]
  by_cases h27 : command = "LIST"
  · rw [if_pos h27]
    intro _
    rfl
  rw [if_neg h27]
  by_cases h28 : command = "NLST"
  · rw [if_pos h28]
    intro hlast
    exact nlstArm_atomic st fs arg c m hlast herr
  rw [if_neg h28]
  by_cases h29 : command = "SITE"
  · rw [if_pos h29]
    intro _
    rfl
  rw [if_neg h29]
  by_cases h30 : command = "SYST"
  · rw [if_pos h30]
    intro _
    rfl
  rw [if_neg h30]
  by_cases h31 : command = "STAT"
  · rw [if_pos h31]
    intro _
    rfl
  rw [if_neg h31]
  by_cases h32 : command = "HELP"
  · rw [if_pos h32]
    intro _
    rfl
  rw [if_neg h32]
  by_cases h33 : command = "NOOP"
  · rw [if_pos h33]
    intro _
    rfl
  rw [if_neg h33]
  by_cases h34 : command = "OPTS"
  · rw [if_pos h34]
    intro _
    exact opts_st st fs arg
  rw [if_neg h34]
  intro _
  rfl

/-- C10: every command whose handling ends in an error reply (last reply
code in the 4xx/5xx range) leaves every field of the session state —
username, working path, data type, data structure, transfer mode, data
connection — exactly as it was before the command. -/
theorem error_reply_atomic (cfg : Config) (env : Env) (st : SessionState) (fs : FS)
    (cmd arg : String) (c : Code) (m : String)
    (hlast : (read_cmd cfg env st fs cmd arg).replies.getLast? = some (c, m))
    (herr : 400 ≤ c.toNat) :
    (read_cmd cfg env st fs cmd arg).st = st := by
  revert hlast
  unfold read_cmd
  split_ifs
  · intro _; rfl
  · intro hlast
    exact dispatch_atomic cfg env st fs (toUpperS cmd) arg c m hlast herr

theorem error_reply_atomic_witness :
    (read_cmd exCfg exEnv exSt exFs "XYZZ" "").replies.getLast?
        = some (Code.CommandUnrecognized, "Command not recognized.") ∧
    (read_cmd exCfg exEnv exSt exFs "XYZZ" "").st = exSt :=
  ⟨rfl, error_reply_atomic exCfg exEnv exSt exFs "XYZZ" ""
    Code.CommandUnrecognized "Command not recognized." rfl (by decide)⟩

/-- C3: PASS with no pending username replies 503; with a pending username
whose stored password equals the argument it replies 230; on mismatch it
replies 530 and the pending username is kept, so an immediately following
PASS with the correct password (no intervening USER) replies 230. -/
theorem pass_arm_correct (cfg : Config) (env : Env) (st : SessionState) (fs : FS)
    (arg : String) :
    (st.username = none →
      read_cmd cfg env st fs "PASS" arg
        = ⟨[(.BadSequenceOfCommands, "Expected `USER`.")], st, fs, .next⟩) ∧
    ∀ u pw, st.username = some u → usersGet cfg.users u = some pw →
      (arg = pw →
        read_cmd cfg env st fs "PASS" arg
          = ⟨[(.UserLoggedIn, "Logged in.")], st, fs, .next⟩) ∧
      (arg ≠ pw →
        read_cmd cfg env st fs "PASS" arg
            = ⟨[(.NotLoggedIn, "Incorrect password.")], st, fs, .next⟩ ∧
        read_cmd cfg env st fs "PASS" pw
            = ⟨[(.UserLoggedIn, "Logged in.")], st, fs, .next⟩) := by
  have hred : ∀ a : String, read_cmd cfg env st fs "PASS" a = passArm cfg st fs a :=
    fun a => rfl
  constructor
  · intro h
    rw [hred, passArm, h]
  · intro u pw hu hpw
    constructor
    · intro he
      subst he
      rw [hred, passArm, hu]
      simp [hpw]
    · intro hne
      constructor
      · rw [hred, passArm, hu]
        have hneq : usersGet cfg.users u ≠ some arg := by
          rw [hpw]
          simp only [ne_eq, Option.some_inj]
          exact fun h => hne h.symm
        simp [hneq]
      · rw [hred, passArm, hu]
        simp [hpw]

/-- Witness for C3: with users a/a and b/b and pending username `a`, a
wrong password gets 530 and keeps the pending username, and retrying with
the right password gets 230. -/
theorem pass_arm_correct_witness :
    read_cmd exCfg exEnv exStU exFs "PASS" "b"
        = ⟨[(.NotLoggedIn, "Incorrect password.")], exStU, exFs, .next⟩ ∧
    read_cmd exCfg exEnv exStU exFs "PASS" "a"
        = ⟨[(.UserLoggedIn, "Logged in.")], exStU, exFs, .next⟩ :=
  ((pass_arm_correct exCfg exEnv exStU exFs "b").2 "a" "a" rfl rfl).2 (by decide)

/-- C4 evidence (code bug): `PORT abc` (non-numeric port octet) and
`PORT 1` (fewer than six values) panic inside the handler — the `unwrap`
calls on `Vec::pop`/`str::parse` — so no reply is written and the session
thread dies, contrary to the spec's rule that malformed arguments are
reported with a reply code and are never fatal. -/
theorem port_malformed_panics :
    read_cmd exCfg exEnv exSt exFs "PORT" "abc" = ⟨[], exSt, exFs, .panicked⟩ ∧
    read_cmd exCfg exEnv exSt exFs "PORT" "1" = ⟨[], exSt, exFs, .panicked⟩ ∧
    read_cmd exCfg exEnv exSt exFs "PORT" "1,2,3,4,99999,1"
      = ⟨[], exSt, exFs, .panicked⟩ :=
  ⟨rfl, rfl, rfl⟩

/-- C6 counterexample: `ACCT` is answered with neither 502 nor 500 — the
handler is `todo!()`, which panics with no reply at all. -/
theorem acct_not_answered :
    read_cmd exCfg exEnv exSt exFs "ACCT" "x" = ⟨[], exSt, exFs, .panicked⟩ := rfl

/-- C6 amended: every out-of-scope command token among ACCT, CDUP, SMNT,
REIN, PASV, RETR, STOR, STOU, APPE, ALLO, REST, RNFR, RNTO, ABOR, DELE,
LIST, SITE, SYST, STAT, HELP hits a `todo!()`: uniformly, the handler
panics with no reply and the session ends. -/
theorem out_of_scope_commands_panic (cfg : Config) (env : Env) (st : SessionState)
    (fs : FS) (arg : String) (cmd : String)
    (h : cmd ∈ ["ACCT", "CDUP", "SMNT", "REIN", "PASV", "RETR", "STOR", "STOU",
      "APPE", "ALLO", "REST", "RNFR", "RNTO", "ABOR", "DELE", "LIST", "SITE",
      "SYST", "STAT", "HELP"]) :
    read_cmd cfg env st fs cmd arg = ⟨[], st, fs, .panicked⟩ := by
  fin_cases h <;> rfl

/-- Witness for C6's amended statement at `PASV`. -/
theorem out_of_scope_commands_panic_witness :
    read_cmd exCfg exEnv exSt exFs "PASV" "" = ⟨[], exSt, exFs, .panicked⟩ :=
  out_of_scope_commands_panic exCfg exEnv exSt exFs "" "PASV" (by decide)

/-- C5 counterexample: a well-formed `PORT 127,0,0,1,4,1` whose outbound
connect is refused (`exEnv` refuses every connection) produces no reply at
all — in particular no 425 — and ends the session fatally: the claim that
the failure is reported as CannotOpenDataConnection and the session
continues is false on the code. -/
theorem port_connect_failure_unreported :
    read_cmd exCfg exEnv exSt exFs "PORT" "127,0,0,1,4,1"
      = ⟨[], exSt, exFs, .fatal⟩ := rfl

/-- C5 amended: a failed outbound connect in the PORT handler propagates
the `io::Error` (the `?` operator) and terminates the session with no
reply; CannotOpenDataConnection (425) is sent only when a data-transfer
command (NLST) runs with no open data connection, and then the session
does continue. -/
theorem port_connect_failure_fatal (cfg : Config) (env : Env) (st : SessionState)
    (fs : FS) (arg : String) (ip : Nat × Nat × Nat × Nat) (port : Nat)
    (hp : portPipeline arg = .ok ip port)
    (hc : env.connectOk ip port = false) :
    read_cmd cfg env st fs "PORT" arg = ⟨[], st, fs, .fatal⟩ ∧
    ∀ (st' : SessionState) (fs' : FS) (narg : String),
      st'.dataConnection = false → fs'.isDir (joinPath st'.path narg) = true →
      read_cmd cfg env st' fs' "NLST" narg
        = ⟨[(.FileStatusOk, "Connecting to data port."),
            (.CannotOpenDataConnection, "No data connection")],
           { st' with dataConnection := false }, fs', .next⟩ := by
  constructor
  · have hred : read_cmd cfg env st fs "PORT" arg = portArm env st fs arg := rfl
    rw [hred, portArm, hp]
    simp [hc]
  · intro st' fs' narg hdc hdir
    have hred : read_cmd cfg env st' fs' "NLST" narg = nlstArm st' fs' narg := rfl
    rw [hred, nlstArm]
    simp only [hdir, Bool.not_true, Bool.false_eq_true, if_false]
    rw [write_to_data_connection]
    simp [hdc]

/-- Witness for C5's amended statement: the refused connect at
`127.0.0.1:1025` is fatal with no reply, and NLST with no data connection
replies 150 then 425 and continues. -/
theorem port_connect_failure_fatal_witness :
    read_cmd exCfg exEnv exSt exFs "PORT" "127,0,0,1,4,1"
        = ⟨[], exSt, exFs, .fatal⟩ ∧
    read_cmd exCfg exEnv exSt exFsSub "NLST" "sub"
        = ⟨[(.FileStatusOk, "Connecting to data port."),
            (.CannotOpenDataConnection, "No data connection")],
           { exSt with dataConnection := false }, exFsSub, .next⟩ :=
  have h := port_connect_failure_fatal exCfg exEnv exSt exFs "127,0,0,1,4,1"
    (127, 0, 0, 1) 1025 rfl rfl
  ⟨h.1, h.2 exSt exFsSub "sub" rfl rfl⟩

/-! ### CWD sequences (for the PWD round trip) -/

/-- Run a sequence of CWD commands, threading the session state. -/
def cwdSeq (cfg : Config) (env : Env) (fs : FS) : SessionState → List String → SessionState
  | st, [] => st
  | st, a :: as => cwdSeq cfg env fs (read_cmd cfg env st fs "CWD " a).st as

/-- Every resolved path along the CWD sequence is an existing directory. -/
def validSeq (fs : FS) : String → List String → Bool
  | _, [] => true
  | p, a :: as => fs.isDir (joinPath p a) && validSeq fs (joinPath p a) as

/-- The working path reached by resolving the arguments in order. -/
def pathAfter : String → List String → String
  | p, [] => p
  | p, a :: as => pathAfter (joinPath p a) as

theorem cwdSeq_path (cfg : Config) (env : Env) (fs : FS) :
    ∀ (args : List String) (st : SessionState), validSeq fs st.path args = true →
      (cwdSeq cfg env fs st args).path = pathAfter st.path args := by
  intro args
  induction args with
  | nil => intro st _; rfl
  | cons a as ih =>
    intro st hv
    simp only [validSeq, Bool.and_eq_true] at hv
    obtain ⟨h1, h2⟩ := hv
    have hstep : read_cmd cfg env st fs "CWD " a
        = ⟨[(.Ok, "Changed directory.")], { st with path := joinPath st.path a },
           fs, .next⟩ := by
      have hred : read_cmd cfg env st fs "CWD " a = cwdArm st fs a := rfl
      rw [hred, cwdArm]
      rw [h1]
      rfl
    show (cwdSeq cfg env fs (read_cmd cfg env st fs "CWD " a).st as).path
        = pathAfter (joinPath st.path a) as
    rw [hstep]
    exact ih { st with path := joinPath st.path a } h2

/-- C7: after any sequence of CWD commands whose resolved paths are
existing directories, PWD replies with the string form of the working path
reached (for any argument bytes, which PWD ignores); and a CWD whose
resolved path is not a directory replies 501 and leaves the whole session
state — in particular the working path — unchanged. -/
theorem cwd_pwd_round_trip (cfg : Config) (env : Env) (st : SessionState) (fs : FS) :
    (∀ args : List String, validSeq fs st.path args = true →
      (cwdSeq cfg env fs st args).path = pathAfter st.path args ∧
      ∀ parg : String,
        read_cmd cfg env (cwdSeq cfg env fs st args) fs "PWD " parg
          = ⟨[(.Ok, (cwdSeq cfg env fs st args).path)],
             cwdSeq cfg env fs st args, fs, .next⟩) ∧
    (∀ arg : String, fs.isDir (joinPath st.path arg) = false →
      read_cmd cfg env st fs "CWD " arg
        = ⟨[(.InvalidParametersOrArguments, "Path is not a directory.")],
           st, fs, .next⟩) := by
  constructor
  · intro args hv
    refine ⟨cwdSeq_path cfg env fs args st hv, fun parg => rfl⟩
  · intro arg hdir
    have hred : read_cmd cfg env st fs "CWD " arg = cwdArm st fs arg := rfl
    rw [hred, cwdArm]
    rw [hdir]
    rfl

/-- Witness for C7: from `"."` one valid CWD into `sub` makes PWD report
`"./sub"`, and CWD to a non-directory replies 501 with the path unchanged. -/
theorem cwd_pwd_round_trip_witness :
    (cwdSeq exCfg exEnv exFsSub exSt ["sub"]).path = "./sub" ∧
    read_cmd exCfg exEnv (cwdSeq exCfg exEnv exFsSub exSt ["sub"]) exFsSub "PWD " "x"
      = ⟨[(.Ok, "./sub")], cwdSeq exCfg exEnv exFsSub exSt ["sub"], exFsSub, .next⟩ ∧
    read_cmd exCfg exEnv exSt exFsSub "CWD " "zzz"
      = ⟨[(.InvalidParametersOrArguments, "Path is not a directory.")],
         exSt, exFsSub, .next⟩ :=
  have h := cwd_pwd_round_trip exCfg exEnv exSt exFsSub
  have h1 := h.1 ["sub"] (by decide)
  ⟨h1.1, h1.2 "x", h.2 "zzz" (by decide)⟩

/-- C8: `TYPE L 8` replies 200 and sets the data type to Local; an `L`
argument whose remainder does not trim to `"8"` (such as `L 7`) replies
504; an argument whose first letter selects none of A/E/I/L replies 504;
an empty argument replies 501 — and in the 504/501 cases the whole session
state, in particular the data type, is unchanged. -/
theorem type_cmd_validation (cfg : Config) (env : Env) (st : SessionState) (fs : FS) :
    (read_cmd cfg env st fs "TYPE" "L 8"
        = ⟨[(.Ok, "Type is now Local.")], { st with dataType := .LocalType }, fs, .next⟩) ∧
    (∀ arg : String, arg.data.head? = some 'L' → trimS ⟨arg.data.tail⟩ ≠ "8" →
      read_cmd cfg env st fs "TYPE" arg
        = ⟨[(.CommandNotImplementedForThatParameter, "Only 8-bit bytes are supported.")],
           st, fs, .next⟩) ∧
    (∀ (arg : String) (ch : Char), arg.data.head? = some ch →
      ch ∉ (['A', 'a', 'E', 'e', 'I', 'i', 'L'] : List Char) →
      read_cmd cfg env st fs "TYPE" arg
        = ⟨[(.CommandNotImplementedForThatParameter,
             "Unknown TYPE: " ++ String.singleton ch ++ ".")], st, fs, .next⟩) ∧
    (read_cmd cfg env st fs "TYPE" ""
        = ⟨[(.InvalidParametersOrArguments, "Missing argument.")], st, fs, .next⟩) := by
  have hred : ∀ a : String, read_cmd cfg env st fs "TYPE" a = type_cmd st fs a :=
    fun _ => rfl
  refine ⟨rfl, ?_, ?_, rfl⟩
  · intro arg hhead htrim
    rw [hred, type_cmd, hhead]
    dsimp only
    rw [if_neg (by decide), if_neg (by decide), if_neg (by decide), if_pos rfl,
      if_pos htrim]
  · intro arg ch hhead hmem
    simp only [List.mem_cons, List.not_mem_nil, or_false, not_or] at hmem
    obtain ⟨hA, ha, hE, he, hI, hi, hL⟩ := hmem
    rw [hred, type_cmd, hhead]
    dsimp only
    rw [if_neg (not_or.mpr ⟨hA, ha⟩), if_neg (not_or.mpr ⟨hE, he⟩),
      if_neg (not_or.mpr ⟨hI, hi⟩), if_neg hL]

/-- Witness for C8: `TYPE L 7` and `TYPE X` reply 504 leaving the state
unchanged (`TYPE L 8` and bare `TYPE` are covered by the hypothesis-free
conjuncts of the theorem). -/
theorem type_cmd_validation_witness :
    read_cmd exCfg exEnv exSt exFs "TYPE" "L 7"
        = ⟨[(.CommandNotImplementedForThatParameter, "Only 8-bit bytes are supported.")],
           exSt, exFs, .next⟩ ∧
    read_cmd exCfg exEnv exSt exFs "TYPE" "X"
        = ⟨[(.CommandNotImplementedForThatParameter, "Unknown TYPE: X.")],
           exSt, exFs, .next⟩ :=
  have h := type_cmd_validation exCfg exEnv exSt exFs
  ⟨h.2.1 "L 7" rfl (by decide), h.2.2.1 "X" 'X' rfl (by decide)⟩

/-- C9 counterexample: issuing MKD for a path whose parent directory does
not exist makes `fs::create_dir(&path)?` fail on the first call: the
`io::Error` propagates, the session dies, and no 257 is ever sent — so
"for every path, issuing MKD twice replies 257 both times" is false. -/
theorem mkd_create_failure_fatal :
    read_cmd exCfg exEnv exSt exFs "MKD " "nope/sub" = ⟨[], exSt, exFs, .fatal⟩ := rfl

/-- C9 amended: for every path that already exists or whose directory can
be created (its parent exists), MKD replies 257, the directory exists
afterwards, and a second MKD for the same path replies 257 again without
error — a pre-existing directory is skipped, not an error — leaving the
filesystem as the first call left it.  (When creation fails, the first
call dies with no reply; see the counterexample.) -/
theorem mkd_idempotent_when_creatable (cfg : Config) (env : Env) (st : SessionState)
    (fs : FS) (arg : String)
    (h : fs.pathExists (joinPath st.path arg) = true
        ∨ createDirOk fs (joinPath st.path arg) = true) :
    (read_cmd cfg env st fs "MKD " arg).replies.map Prod.fst = [Code.PathNameCreated] ∧
    (read_cmd cfg env st fs "MKD " arg).fs.pathExists (joinPath st.path arg) = true ∧
    read_cmd cfg env (read_cmd cfg env st fs "MKD " arg).st
        (read_cmd cfg env st fs "MKD " arg).fs "MKD " arg
      = ⟨[(.PathNameCreated,
           "Successfully created " ++ quoteDebug (joinPath st.path arg) ++ ".")],
         st, (read_cmd cfg env st fs "MKD " arg).fs, .next⟩ := by
  have hred : ∀ (st' : SessionState) (fs' : FS),
      read_cmd cfg env st' fs' "MKD " arg = mkdArm st' fs' arg := fun _ _ => rfl
  simp only [hred]
  by_cases hex : fs.pathExists (joinPath st.path arg) = true
  · have hout : mkdArm st fs arg
        = ⟨[(.PathNameCreated,
             "Successfully created " ++ quoteDebug (joinPath st.path arg) ++ ".")],
           st, fs, .next⟩ := by
      unfold mkdArm
      dsimp only
      rw [if_pos hex]
    rw [hout]
    exact ⟨rfl, hex, hout⟩
  · have hcr : createDirOk fs (joinPath st.path arg) = true := h.resolve_left hex
    have hout : mkdArm st fs arg
        = ⟨[(.PathNameCreated,
             "Successfully created " ++ quoteDebug (joinPath st.path arg) ++ ".")],
           st, ⟨joinPath st.path arg :: fs.dirs⟩, .next⟩ := by
      unfold mkdArm
      dsimp only
      rw [if_neg hex, if_pos hcr]
    rw [hout]
    have hex2 : FS.pathExists ⟨joinPath st.path arg :: fs.dirs⟩ (joinPath st.path arg)
        = true := by
      simp [FS.pathExists, FS.isDir]
    have hout2 : mkdArm st ⟨joinPath st.path arg :: fs.dirs⟩ arg
        = ⟨[(.PathNameCreated,
             "Successfully created " ++ quoteDebug (joinPath st.path arg) ++ ".")],
           st, ⟨joinPath st.path arg :: fs.dirs⟩, .next⟩ := by
      unfold mkdArm
      dsimp only
      rw [if_pos hex2]
    exact ⟨rfl, hex2, hout2⟩

/-- Witness for C9's amended statement: from the root `"."` (which exists),
`MKD sub` creates `./sub` and replies 257, and a second `MKD sub` replies
257 again with the filesystem unchanged. -/
theorem mkd_idempotent_when_creatable_witness :
    (read_cmd exCfg exEnv exSt exFs "MKD " "sub").replies.map Prod.fst
        = [Code.PathNameCreated] ∧
    (read_cmd exCfg exEnv exSt exFs "MKD " "sub").fs.pathExists "./sub" = true ∧
    read_cmd exCfg exEnv (read_cmd exCfg exEnv exSt exFs "MKD " "sub").st
        (read_cmd exCfg exEnv exSt exFs "MKD " "sub").fs "MKD " "sub"
      = ⟨[(.PathNameCreated, "Successfully created \"./sub\".")],
         exSt, (read_cmd exCfg exEnv exSt exFs "MKD " "sub").fs, .next⟩ :=
  mkd_idempotent_when_creatable exCfg exEnv exSt exFs "sub" (Or.inr (by decide))
